import Mathlib

set_option maxRecDepth 4000

/-!
Verification of the NixieClock firmware (bondians/interocitor) against its
natural-language specification.

This file shallowly embeds the C sources:
  * src/clock.c           - time/date keeping (days_in_month, time_date_update)
  * src/src/event.c       - 16-slot event queue (add_event, get_next_event)
  * src/src/nixie.c       - virtual display streams (nixie_out) and the
                            crossfade engine (nixie_crossfade)
  * src/player.c          - music player state machine (player_service)

Machine integers are modelled as Nat (unsigned) or Int (signed) with explicit
wrapping (`% 256`, `% 65536`) at every point where the C type can overflow.
The target compiler is avr-gcc, whose plain `char` is signed by default; bytes
handed to `nixie_out(char ch, FILE *)` are therefore reinterpreted as signed
8-bit values before any arithmetic, which matters for the `*`/`@` parameter
paths.  PROGMEM tables are plain Lean lists; `pgm_read_byte(&tab[i])` becomes
`tab.getD i 0`.  Hardware side effects (beep_period, SPI) are modelled as
recorded events where a claim needs to observe them.
-/

/-! ## clock.c -/

/-- PROGMEM table `days_month` from src/clock.c (index 0 is a filler). -/
def days_month : List Nat := [0, 31, 28, 31, 30, 31, 30, 31, 31, 30, 31, 30, 31]

/-- `days_in_month(month, year)` from src/clock.c: table lookup plus one for
February when `(year & 0x0003) == 0 && (year % 100) != 0`.  `ret` is a
uint8_t, hence the `% 256` on the increment. -/
def days_in_month (month year : Nat) : Nat :=
  let ret := days_month.getD month 0
  if month = 2 ∧ year &&& 3 = 0 ∧ year % 100 ≠ 0 then (ret + 1) % 256 else ret

/-- `time_t` from src/include/clock.h: all fields uint8_t. -/
structure TimeT where
  hour : Nat
  minute : Nat
  second : Nat
deriving DecidableEq

/-- `date_t` from src/include/clock.h: year is uint16_t, month/day uint8_t. -/
structure DateT where
  year : Nat
  month : Nat
  day : Nat
deriving DecidableEq

/-- `time_date_update()` from src/clock.c, lines 181-210, as a pure function of
the `run` flag and the module time/date state.  The nesting of the rollover
branches mirrors the source exactly; note that in the `day >
days_in_month(...)` branch the source increments the month (and wraps the
year) but contains no assignment resetting `date.day`. -/
def time_date_update (run : Nat) (t : TimeT) (d : DateT) : TimeT × DateT :=
  if run = 0 then (t, d)
  else
    let second := (t.second + 1) % 256
    if second ≥ 60 then
      let minute := (t.minute + 1) % 256
      if minute ≥ 60 then
        let hour := (t.hour + 1) % 256
        if hour ≥ 24 then
          let day := (d.day + 1) % 256
          if day > days_in_month d.month d.year then
            let month := (d.month + 1) % 256
            if month > 12 then
              (⟨0, 0, 0⟩, ⟨(d.year + 1) % 65536, 1, day⟩)
            else
              (⟨0, 0, 0⟩, ⟨d.year, month, day⟩)
          else
            (⟨0, 0, 0⟩, ⟨d.year, d.month, day⟩)
        else
          (⟨hour, 0, 0⟩, d)
      else
        (⟨t.hour, minute, 0⟩, d)
    else
      (⟨t.hour, t.minute, second⟩, d)

/-! ## event.c -/

/-- `EVENT_QUEUE_SIZE` from src/include/event.h. -/
def EVENT_QUEUE_SIZE : Nat := 16

/-- The event queue module state of src/src/event.c: uint8_t head and tail
indices plus the 16-entry `event_t` array (kind, data pairs). -/
structure EventQueue where
  head : Nat
  tail : Nat
  slots : List (Nat × Nat)
deriving DecidableEq

/-- `clear_events()` from src/src/event.c. -/
def clear_events (q : EventQueue) : EventQueue :=
  { q with head := 0, tail := 0 }

/-- `add_event(event, data)` from src/src/event.c, lines 50-66.  The head is
wrapped at EVENT_QUEUE_SIZE after its increment; when the queue was full
(head catches up with tail) the tail is incremented WITHOUT any wrap check,
exactly as in the source. -/
def add_event (ev data : Nat) (q : EventQueue) : EventQueue :=
  let slots := q.slots.set q.head (ev, data)
  let head := (q.head + 1) % 256
  let head := if head ≥ EVENT_QUEUE_SIZE then 0 else head
  if head = q.tail then
    { head := head, tail := (q.tail + 1) % 256, slots := slots }
  else
    { head := head, tail := q.tail, slots := slots }

/-- `get_next_event(mask)` from src/src/event.c, lines 240-265, restricted to
the queue manipulation (the call to `scan_for_events` polls hardware sources
and is not part of the queue semantics).  The slot read `event_queue[tail]`
is modelled with `getD`; the claim about staying inside the array is about
the index `tail` itself.  NO_EVENT is kind 0 with data 0. -/
def get_next_event (q : EventQueue) : (Nat × Nat) × EventQueue :=
  if q.head ≠ q.tail then
    let ev := q.slots.getD q.tail (0, 0)
    let tail := (q.tail + 1) % 256
    let tail := if tail ≥ EVENT_QUEUE_SIZE then 0 else tail
    (ev, { q with tail := tail })
  else
    ((0, 0), q)

/-- Iterated enqueue of the same event, used to drive the queue into its
overflow regime. -/
def add_events_n : Nat → EventQueue → EventQueue
  | 0, q => q
  | n + 1, q => add_events_n n (add_event 1 0 q)

/-- The queue right after `clear_events` at boot: indices 0, empty slots. -/
def queue0 : EventQueue := ⟨0, 0, List.replicate 16 (0, 0)⟩

/-! ## nixie.c: virtual display streams -/

/-- `NIXIE_SEGMENTS` from src/nixie.h. -/
def NIXIE_SEGMENTS : Nat := 64

/-- `NIXIE_DISPLAY_WIDTH` from src/nixie.h. -/
def NIXIE_DISPLAY_WIDTH : Nat := 6

/-- `MAX_NIXIE_INTENSITY` from src/nixie.h. -/
def MAX_NIXIE_INTENSITY : Nat := 9

/-- `NOMINAL_NIXIE_INTENSITY` from src/nixie.h. -/
def NOMINAL_NIXIE_INTENSITY : Nat := 9

/-- PROGMEM table `nixie_digit_offset` from src/src/nixie.c: segment offsets
for tubes 0..5, left lamp, right lamp, aux A, aux B. -/
def nixie_digit_offset : List Nat := [0, 10, 21, 32, 43, 53, 20, 42, 31, 63]

/-- `NIXIE_LEFT_LAMP` (pseudo-digit index) from src/nixie.h. -/
def NIXIE_LEFT_LAMP : Nat := 6

/-- `NIXIE_RIGHT_LAMP` from src/nixie.h. -/
def NIXIE_RIGHT_LAMP : Nat := 7

/-- `NIXIE_AUX_A` from src/nixie.h. -/
def NIXIE_AUX_A : Nat := 8

/-- `NIXIE_AUX_B` from src/nixie.h. -/
def NIXIE_AUX_B : Nat := 9

/-- Reinterpret a byte as avr-gcc `char`, which is signed 8-bit. -/
def int8OfByte (b : Nat) : Int :=
  if b % 256 < 128 then (b % 256 : Nat) else (b % 256 : Nat) - 256

/-- Wrap a signed value into the int8_t range, two's complement. -/
def int8Wrap (i : Int) : Int := ((i + 128) % 256) - 128

/-- Convert a signed value to uint8_t (two's complement truncation). -/
def toByte (i : Int) : Nat := (i % 256).toNat

/-- `nixie_stream_t` from src/nixie.h: segment buffer handle, uint8_t cursor
and intensity, parser state (0 = NORMAL_OUTPUT, 1 = SET_INTENSITY, 2 =
SET_CURSOR_POS) and the `control_t` flag bits as named Booleans. -/
structure NixieStream where
  segdata : List Nat
  cursor : Nat
  intensity : Nat
  state : Nat
  no_cursor_inc : Bool
  single_no_inc : Bool
  overlay : Bool
  single_overlay : Bool
  no_cursor_wrap : Bool
deriving DecidableEq

/-- `clear_nixie_display(*segdata)` from src/src/nixie.c: zero all 64 segment
intensities. -/
def clear_nixie_display (_segdata : List Nat) : List Nat :=
  List.replicate NIXIE_SEGMENTS 0

/-- `clear_nixie_digit(*segdata, digit)` from src/src/nixie.c: zero the 10
segments of a real tube, or the single segment of a pseudo-digit. -/
def clear_nixie_digit (segdata : List Nat) (digit : Nat) : List Nat :=
  let count := if digit < NIXIE_DISPLAY_WIDTH then 10 else 1
  let off := nixie_digit_offset.getD digit 0
  (List.range count).foldl (fun sd i => sd.set (off + i) 0) segdata

/-- `set_nixie_segment(*segdata, digit, segment, intensity)` from
src/src/nixie.c. -/
def set_nixie_segment (segdata : List Nat) (digit segment intensity : Nat) : List Nat :=
  segdata.set (nixie_digit_offset.getD digit 0 + segment) intensity

/-- `inc_cursor(*control, char_mode)` from src/src/nixie.c, lines 615-634. -/
def inc_cursor (p : NixieStream) (char_mode : Bool) : NixieStream :=
  if char_mode ∧ (p.no_cursor_inc ∨ p.single_no_inc) then
    { p with single_no_inc := false }
  else
    let cursor := (p.cursor + 1) % 256
    if p.no_cursor_wrap then
      if cursor > NIXIE_DISPLAY_WIDTH then { p with cursor := NIXIE_DISPLAY_WIDTH }
      else { p with cursor := cursor }
    else if cursor ≥ NIXIE_DISPLAY_WIDTH then { p with cursor := 0 }
    else { p with cursor := cursor }

/-- `dec_cursor(*control)` from src/src/nixie.c, lines 653-665: uint8_t
decrement, with the sign bit test `cursor & 0x80` detecting wraparound. -/
def dec_cursor (p : NixieStream) : NixieStream :=
  let cursor := (p.cursor + 255) % 256
  if cursor &&& 0x80 ≠ 0 then
    if p.no_cursor_wrap then { p with cursor := 0 }
    else { p with cursor := NIXIE_DISPLAY_WIDTH - 1 }
  else { p with cursor := cursor }

/-- `nixie_out(ch, *stream)` from src/src/nixie.c, lines 698-924, as a pure
state transformer on the stream.  `ch` is a plain `char`, signed under
avr-gcc, so the incoming byte is reinterpreted as int8_t and the parameter
arithmetic `ch -= '0'` wraps in the signed 8-bit range. -/
def nixie_out (b : Nat) (p : NixieStream) : NixieStream :=
  if p.state ≠ 0 then
    let ch := int8Wrap (int8OfByte b - 48)
    let p :=
      if p.state = 1 then
        if ch ≤ (MAX_NIXIE_INTENSITY : Int) then { p with intensity := toByte ch } else p
      else if p.state = 2 then
        if ch ≤ (NIXIE_DISPLAY_WIDTH : Int) then { p with cursor := toByte ch } else p
      else p
    { p with state := 0 }
  else
    let ch := int8OfByte b
    let char_type : Nat :=
      if 48 ≤ ch ∧ ch ≤ 57 then 1
      else if 65 ≤ ch ∧ ch ≤ 73 then 2
      else if 97 ≤ ch ∧ ch ≤ 105 then 2
      else if ch = 32 then 3
      else 0
    let chv : Int :=
      if 48 ≤ ch ∧ ch ≤ 57 then ch - 48
      else if 65 ≤ ch ∧ ch ≤ 73 then ch - 65
      else if 97 ≤ ch ∧ ch ≤ 105 then ch - 97
      else ch
    if char_type ≠ 0 then
      let p :=
        if p.cursor < NIXIE_DISPLAY_WIDTH then
          let sd :=
            if ¬(p.overlay ∨ p.single_overlay) then clear_nixie_digit p.segdata p.cursor
            else p.segdata
          let sd :=
            if char_type = 2 then set_nixie_segment sd p.cursor 0 p.intensity else sd
          let chv := if char_type = 2 then chv + 1 else chv
          let sd :=
            if char_type ≠ 3 then set_nixie_segment sd p.cursor chv.toNat p.intensity else sd
          { p with segdata := sd }
        else p
      let p := inc_cursor p true
      { p with single_overlay := false }
    else
      match ch with
      | 60 => { p with segdata := set_nixie_segment p.segdata NIXIE_LEFT_LAMP 0 p.intensity }
      | 62 => { p with segdata := set_nixie_segment p.segdata NIXIE_RIGHT_LAMP 0 p.intensity }
      | 40 => { p with segdata := set_nixie_segment p.segdata NIXIE_LEFT_LAMP 0 0 }
      | 41 => { p with segdata := set_nixie_segment p.segdata NIXIE_RIGHT_LAMP 0 0 }
      | 96 =>
        let sd := set_nixie_segment p.segdata NIXIE_LEFT_LAMP 0 0
        let sd := set_nixie_segment sd NIXIE_RIGHT_LAMP 0 0
        { p with segdata := sd }
      | 46 =>
        if p.cursor = 2 ∨ p.cursor = 3 then
          { p with segdata := set_nixie_segment p.segdata NIXIE_LEFT_LAMP 0 p.intensity }
        else if p.cursor > 3 then
          { p with segdata := set_nixie_segment p.segdata NIXIE_RIGHT_LAMP 0 p.intensity }
        else p
      | 44 =>
        if p.cursor = 0 ∨ p.cursor = 1 then
          { p with segdata := set_nixie_segment p.segdata NIXIE_LEFT_LAMP 0 p.intensity }
        else if p.cursor < 4 then
          { p with segdata := set_nixie_segment p.segdata NIXIE_RIGHT_LAMP 0 p.intensity }
        else p
      | 88 => { p with segdata := set_nixie_segment p.segdata NIXIE_AUX_A 0 p.intensity }
      | 120 => { p with segdata := set_nixie_segment p.segdata NIXIE_AUX_A 0 0 }
      | 89 => { p with segdata := set_nixie_segment p.segdata NIXIE_AUX_B 0 p.intensity }
      | 121 => { p with segdata := set_nixie_segment p.segdata NIXIE_AUX_B 0 0 }
      | 91 => if p.intensity ≠ 0 then { p with intensity := p.intensity - 1 } else p
      | 93 =>
        if p.intensity < MAX_NIXIE_INTENSITY then { p with intensity := p.intensity + 1 }
        else p
      | 42 => { p with state := 1 }
      | 126 => { p with intensity := NOMINAL_NIXIE_INTENSITY }
      | 36 => { p with no_cursor_inc := false }
      | 35 => { p with no_cursor_inc := true }
      | 33 => { p with single_no_inc := true }
      | 38 => { p with overlay := false }
      | 124 => { p with overlay := true }
      | 95 => { p with single_overlay := true }
      | 94 => { dec_cursor p with single_overlay := true }
      | 64 => { p with state := 2 }
      | 123 => { p with no_cursor_wrap := true }
      | 125 => { p with no_cursor_wrap := false }
      | 12 => { p with segdata := clear_nixie_display p.segdata, cursor := 0 }
      | 13 => { p with cursor := 0 }
      | 10 => { p with segdata := clear_nixie_display p.segdata }
      | 8 => dec_cursor p
      | 9 => inc_cursor p false
      | 11 =>
        { p with intensity := MAX_NIXIE_INTENSITY, cursor := 0,
                 no_cursor_inc := false, single_no_inc := false, overlay := false,
                 single_overlay := false, no_cursor_wrap := false }
      | _ => p

/-- Feed a byte sequence to a stream, front to back. -/
def nixie_out_list (p : NixieStream) : List Nat → NixieStream
  | [] => p
  | b :: rest => nixie_out_list (nixie_out b p) rest

/-- A stream right after `nixie_stream_init` / `nixie_control_init`: cleared
buffer, cursor 0, maximum intensity, normal state, all control flags off. -/
def nixie_stream_init : NixieStream :=
  ⟨List.replicate NIXIE_SEGMENTS 0, 0, MAX_NIXIE_INTENSITY, 0,
    false, false, false, false, false⟩

/-! ## nixie.c: crossfade engine -/

/-- The per-segment body of the crossfade pass in `nixie_crossfade`
(src/src/nixie.c, lines 478-496): fade up by one toward a nonzero target,
fade down by one toward zero, otherwise leave alone. -/
def fade_seg (f t : Nat) : Nat :=
  if t ≠ 0 then
    if f < t then f + 1 else f
  else
    if f ≠ 0 then f - 1 else f

/-- One crossfade adjustment pass over the 64 segments of the active buffer
against the target buffer. -/
def fade_pass (pfrom pto : List Nat) : List Nat :=
  List.zipWith fade_seg pfrom pto

/-- Result of a `nixie_crossfade` run: the final active buffer, the number of
completed PWM cycles the call consumed (one per iteration of its
wait-for-`one_cycle_done` loop), and whether the do/while loop actually
exited (`false` only when the modelling fuel ran out first). -/
structure FadeResult where
  buffer : List Nat
  cycles : Nat
  done : Bool
deriving DecidableEq

/-- The do/while loop of `nixie_crossfade` (src/src/nixie.c, lines 449-502).
Each iteration waits for one full PWM cycle.  While `crossfade_count <
crossfade_rate` the iteration only increments the 2-bit counter (a skip
cycle, `activity = 1`); otherwise it performs one fade pass, resets the
counter, and the loop exits when that pass changed nothing (`activity ==
0`). -/
def crossfade_loop (pto : List Nat) (rate : Nat) :
    Nat → List Nat → Nat → Nat → FadeResult
  | 0, pfrom, _, cycles => ⟨pfrom, cycles, false⟩
  | fuel + 1, pfrom, count, cycles =>
    if count < rate then
      crossfade_loop pto rate fuel pfrom ((count + 1) % 4) (cycles + 1)
    else
      let pfrom2 := fade_pass pfrom pto
      if pfrom2 = pfrom then ⟨pfrom2, cycles + 1, true⟩
      else crossfade_loop pto rate fuel pfrom2 0 (cycles + 1)

/-- `nixie_crossfade(to_stream)` from src/src/nixie.c, lines 435-507, as a
function of the active buffer (`nixie_segment_ptr`), the target stream's
buffer, and the configured crossfade rate.  `crossfade_count` starts at 3,
as set in the atomic block at entry. -/
def nixie_crossfade (pfrom pto : List Nat) (rate fuel : Nat) : FadeResult :=
  crossfade_loop pto rate fuel pfrom 3 0

/-- The per-segment final value the crossfade converges to, as the claim
describes it: the target when the target is above the start, zero when the
target is zero, and the unchanged start value otherwise. -/
def final_seg (f t : Nat) : Nat :=
  if t = 0 then 0 else if f < t then t else f

/-- Number of fade passes a segment still needs before it stops changing. -/
def seg_dist (f t : Nat) : Nat :=
  if t = 0 then f else t - f

/-- Total remaining fade-pass work of a buffer pair. -/
def sum_dist (pfrom pto : List Nat) : Nat :=
  (List.zipWith seg_dist pfrom pto).sum

/-! ## player.c: music player

The player statics of src/player.c are gathered into one state record.
Characters are fetched from the score (a byte list; RAM memory space) and
held in `int8_t` locals, modelled as Int via `int8OfByte`.  In
`find_bookmark` the character variable is a uint8_t and is modelled as a
nonnegative Int.  `player_service`'s do/while loop runs several states per
call until a `break`; it is modelled with fuel, returning `none` only on
fuel exhaustion.  The hardware calls `beep_period`/`beep_mute`/`beep_gain`
are not part of the state; the two observations the claims need are
instrumented: `note_starts` records the (octave, semitone) table index pair
of every `beep_period` programming a real note in STATE_START_NOTE, and
`jumps` counts taken `]` jumps in STATE_GOTO_BOOKMARK.

Player execution states (player_state_t), in enum order:
  0 STATE_RESET          1 STATE_GET_NOTE      2 STATE_GET_MODIFIER
  3 STATE_START_NOTE     4 STATE_WAIT_NOTE     5 STATE_START_REST
  6 STATE_WAIT_REST      7 STATE_GET_DIGIT     8 STATE_GET_NUMBER
  9 STATE_GET_NUMBER_2  10 STATE_SET_OCTAVE   11 STATE_SET_NOTE_RATIO
 12 STATE_SET_VOLUME    13 STATE_SET_TRANSPOSITION
 14 STATE_SET_KEY       15 STATE_SET_KEY_2    16 STATE_SET_TEMPO
 17 STATE_SET_TEMPO_2   18 STATE_SET_BOOKMARK 19 STATE_SET_BOOKMARK_2
 20 STATE_GOTO_BOOKMARK 21 STATE_STOP
Run states: 0 PLAYER_STOP, 1 PLAYER_RUN, 2 PLAYER_INIT. -/

/-- `is_separator(ch)` from src/player.c: space or colon. -/
def is_separator (c : Int) : Bool := c == 32 || c == 58

/-- `is_digit(ch)` from src/player.c. -/
def is_digit (c : Int) : Bool := decide (48 ≤ c ∧ c ≤ 57)

/-- `is_note(ch)` from src/player.c: letters A..G. -/
def is_note (c : Int) : Bool := decide (65 ≤ c ∧ c ≤ 71)

/-- `is_rest(ch)` from src/player.c: R or comma. -/
def is_rest (c : Int) : Bool := c == 82 || c == 44

/-- PROGMEM table `c_major_scale` from src/player.c: semitone for each of the
note letters A..G. -/
def c_major_scale : List Int := [9, 11, 0, 2, 4, 5, 7]

/-- The statics of src/player.c: the `player_service` locals that persist
across calls, the module variables `player_timer`, `player_ptr`,
`player_enable`, and the `bookmark[]` array ((position, repeat) pairs;
position 0 plays the role of the NULL pointer, the real recorded positions
are always past the opening characters of a bookmark spec and hence
nonzero).  `ratio8` is `note_rest_ratio` in the source.  `note_starts` and
`jumps` are pure instrumentation of hardware/jump events. -/
structure PState where
  state : Nat
  next_state : Nat
  note : Int
  octave : Int
  accidental : Int
  transposition : Int
  note_size : Nat
  size_modifier : Nat
  ratio8 : Nat
  whole_note_period : Nat
  note_period : Nat
  rest_period : Nat
  scale : List Int
  player_timer : Nat
  player_ptr : Nat
  player_enable : Nat
  bookmarks : List (Nat × Nat)
  note_starts : List (Int × Int)
  jumps : Nat
deriving DecidableEq

/-- `next_player_char()` from src/player.c for the RAM memory space: read the
byte at the pointer (0 past the end of the string, where the terminating
NUL lives) and fold lowercase to uppercase via `data &= ~0x20`.  The
`player_ptr++` is performed at each call site. -/
def next_player_char (score : List Nat) (ptr : Nat) : Nat :=
  let data := score.getD ptr 0
  if 97 ≤ data ∧ data ≤ 122 then data - 32 else data

/-- The repeat-count digit loop of `find_bookmark` (src/player.c, lines
544-548): `ch` is the uint8_t character already fetched; accumulate decimal
digits into the uint16_t `repeat`. -/
def scan_repeat_digits (score : List Nat) : Nat → Int → Nat → Nat → Option (Int × Nat × Nat)
  | 0, _, _, _ => none
  | fuel + 1, ch, ptr, rep =>
    if is_digit ch then
      let rep := (rep * 10 + (ch - 48).toNat) % 65536
      let ch2 : Int := next_player_char score ptr
      scan_repeat_digits score fuel ch2 (ptr + 1) rep
    else some (ch, ptr, rep)

/-- The scanning do/while loop of `find_bookmark(search_mark)` from
src/player.c, lines 506-581, threading an explicit cursor instead of the
saved-and-restored `player_ptr`.  Returns the updated bookmark array, the
`found_mark` flag and the final cursor.  Note the source bug kept as-is:
after fetching the bookmark number into `mark`, the digit test reads `ch`
(still the `[` lead-in), so a `[` followed by a digit falls into the
`continue` branch and is never recorded by the pre-scan; only `[` followed
by a separator (bookmark 0) is. -/
def find_bookmark_iter (score : List Nat) (search : Nat) :
    Nat → Nat → List (Nat × Nat) → Option (List (Nat × Nat) × Bool × Nat)
  | 0, _, _ => none
  | fuel + 1, ptr, bms =>
    let ch : Int := next_player_char score ptr
    let ptr := ptr + 1
    if ch = 91 then
      let mark : Int := next_player_char score ptr
      let ptr := ptr + 1
      let go : Option Nat :=
        if is_separator mark then some 0
        else if is_digit ch then some (mark - 48).toNat
        else none
      match go with
      | none => find_bookmark_iter score search fuel ptr bms
      | some mark =>
        let ch2 : Int := next_player_char score ptr
        let ptr := ptr + 1
        let st : Int × Nat :=
          if is_separator ch2 then ((next_player_char score ptr : Nat), ptr + 1)
          else (ch2, ptr)
        match scan_repeat_digits score (score.length + 2) st.1 st.2 0 with
        | none => none
        | some (chF, ptrF, rep) =>
          let ptr := ptrF - 1
          let rep := if rep > 254 then 254 else rep
          let rep := if rep = 0 then 255 else rep
          let found := mark = search
          let bms :=
            if found ∨ search = 255 then bms.set mark (ptr, rep) else bms
          if chF ≠ 0 ∧ ¬(mark = search) then find_bookmark_iter score search fuel ptr bms
          else some (bms, found, ptr)
    else if ch ≠ 0 then find_bookmark_iter score search fuel ptr bms
    else some (bms, false, ptr)

/-- The digit loop of STATE_GET_NUMBER_2 (src/player.c, lines 1121-1133):
accumulate decimal digits of the int8_t character into the uint16_t
`number`, returning the first non-digit character and the advanced
pointer. -/
def get_number_digits (score : List Nat) : Nat → Int → Nat → Nat → Option (Int × Nat × Nat)
  | 0, _, _, _ => none
  | fuel + 1, ch, ptr, number =>
    if is_digit ch then
      let number := (number * 10 + (ch - 48).toNat) % 65536
      let ch2 := int8OfByte (next_player_char score ptr)
      get_number_digits score fuel ch2 (ptr + 1) number
    else some (ch, ptr, number)

/-- The do/while(1) state machine loop of `player_service()` from
src/player.c, lines 725-1357.  `ch`, `digit` (int8_t) and `number`
(uint16_t) are the per-call locals, threaded through the loop; the function
returns at each `break` of the source and `none` only when the fuel runs
out.  Each branch mirrors one state of the source, in source order. -/
def service_loop (score : List Nat) : Nat → PState → Int → Int → Nat → Option PState
  | 0, _, _, _, _ => none
  | fuel + 1, p, ch, digit, number =>
    if p.state = 0 ∨ p.player_enable = 2 then
      -- STATE_RESET (also forced by PLAYER_INIT): reset all player variables;
      -- the scale-copy for loop leaves the local digit at 7.
      service_loop score fuel
        { p with
          scale := c_major_scale,
          note := 0, octave := 4, accidental := 0, transposition := 0,
          note_size := 4, size_modifier := 0, ratio8 := 7,
          whole_note_period := 625 * 60 * 4 / 120 % 65536,
          player_timer := 0, player_enable := 1, state := 1 }
        ch 7 number
    else if p.state = 1 then
      -- STATE_GET_NOTE
      let ch := int8OfByte (next_player_char score p.player_ptr)
      let p := { p with player_ptr := p.player_ptr + 1 }
      if is_separator ch then service_loop score fuel p ch digit number
      else if is_note ch then
        let ch := ch - 65
        service_loop score fuel
          { p with note := p.scale.getD ch.toNat 0, accidental := 0,
                   state := 2, next_state := 3 } ch digit number
      else if is_rest ch then
        service_loop score fuel
          { p with note := int8Wrap 255, state := 2, next_state := 3 } ch digit number
      else if ch = 33 then service_loop score fuel { p with state := 3 } ch digit number
      else if ch = 79 then
        service_loop score fuel { p with state := 7, next_state := 10 } ch digit number
      else if ch = 62 then
        service_loop score fuel
          (if p.octave < 10 - 1 then { p with octave := p.octave + 1 } else p) ch digit number
      else if ch = 60 then
        service_loop score fuel
          (if p.octave > 0 then { p with octave := p.octave - 1 } else p) ch digit number
      else if ch = 77 then
        service_loop score fuel { p with state := 7, next_state := 11 } ch digit number
      else if ch = 86 then
        service_loop score fuel { p with state := 7, next_state := 12 } ch digit number
      else if ch = 80 then
        -- is_transpose_cmd: the source sets state = STATE_GET_NUMBER and
        -- next_state = STATE_SET_TRANSPOSITION but, alone of all the
        -- recognized-command branches, has no `continue`, so control falls
        -- through to the trailing `state = STATE_STOP; continue;`.
        service_loop score fuel { p with state := 21, next_state := 13 } ch digit number
      else if ch = 75 then service_loop score fuel { p with state := 14 } ch digit number
      else if ch = 84 then
        let p := { p with note_size := 4, size_modifier := 0 }
        let ch := int8OfByte (next_player_char score p.player_ptr)
        let p := { p with player_ptr := p.player_ptr + 1 }
        if is_separator ch ∨ is_digit ch then
          service_loop score fuel
            { p with player_ptr := p.player_ptr - 1, state := 8, next_state := 17 }
            ch digit number
        else
          service_loop score fuel { p with state := 2, next_state := 16 } ch digit number
      else if ch = 91 then
        service_loop score fuel { p with state := 7, next_state := 18 } ch digit number
      else if ch = 93 then
        service_loop score fuel { p with state := 7, next_state := 20 } ch digit number
      else if ch = 42 then service_loop score fuel { p with state := 0 } ch digit number
      else if ch = 0 then
        service_loop score fuel
          { p with player_ptr := p.player_ptr - 1, state := 21 } ch digit number
      else service_loop score fuel { p with state := 21 } ch digit number
    else if p.state = 2 then
      -- STATE_GET_MODIFIER
      let ch := int8OfByte (next_player_char score p.player_ptr)
      let p := { p with player_ptr := p.player_ptr + 1 }
      if is_separator ch then
        service_loop score fuel { p with state := p.next_state } ch digit number
      else if is_digit ch then
        service_loop score fuel { p with octave := ch - 48 } ch digit number
      else if ch = 46 then
        service_loop score fuel { p with size_modifier := p.size_modifier ||| 1 } ch digit number
      else if ch = 47 then
        service_loop score fuel { p with size_modifier := p.size_modifier ||| 2 } ch digit number
      else if ch = 124 ∨ ch = 44 then
        service_loop score fuel { p with size_modifier := p.size_modifier ||| 4 } ch digit number
      else if ch = 94 then
        service_loop score fuel { p with size_modifier := p.size_modifier ||| 8 } ch digit number
      else if ch = 45 then
        service_loop score fuel { p with accidental := -1 } ch digit number
      else if ch = 78 ∨ ch = 61 then
        service_loop score fuel { p with accidental := 0 } ch digit number
      else if ch = 43 ∨ ch = 35 then
        service_loop score fuel { p with accidental := 1 } ch digit number
      else if ch = 87 then
        service_loop score fuel { p with note_size := 1, size_modifier := 0 } ch digit number
      else if ch = 72 then
        service_loop score fuel { p with note_size := 2, size_modifier := 0 } ch digit number
      else if ch = 81 then
        service_loop score fuel { p with note_size := 4, size_modifier := 0 } ch digit number
      else if ch = 73 then
        service_loop score fuel { p with note_size := 8, size_modifier := 0 } ch digit number
      else if ch = 83 then
        service_loop score fuel { p with note_size := 16, size_modifier := 0 } ch digit number
      else if ch = 89 then
        service_loop score fuel { p with note_size := 32, size_modifier := 0 } ch digit number
      else
        service_loop score fuel
          { p with player_ptr := p.player_ptr - 1, state := p.next_state } ch digit number
    else if p.state = 3 then
      -- STATE_START_NOTE
      let rest := p.whole_note_period
      let rest := if p.size_modifier &&& 1 ≠ 0 then (rest + rest / 2) % 65536 else rest
      let rest := if p.size_modifier &&& 2 ≠ 0 then rest / 3 else rest
      let rest := rest / p.note_size
      if p.note = 255 then
        service_loop score fuel { p with rest_period := rest, state := 5 } ch digit number
      else
        let digit : Int :=
          if p.size_modifier &&& 4 ≠ 0 then 8
          else if p.size_modifier &&& 8 ≠ 0 then 2
          else p.ratio8
        let np := rest * digit.toNat % 65536 / 8
        let rest2 := (rest + 65536 - np) % 65536
        let digit := int8Wrap (p.note + p.accidental + p.transposition)
        let ch := p.octave
        let dc : Int × Int :=
          if digit < 0 then (digit + 12, ch - 1)
          else if digit ≥ 12 then (digit - 12, ch + 1)
          else (digit, ch)
        let digit := dc.1
        let ch := if dc.2 < 0 then 0 else if dc.2 ≥ 10 then 10 - 1 else dc.2
        service_loop score fuel
          { p with note_period := np, rest_period := rest2, state := 4,
                   note_starts := p.note_starts ++ [(ch, digit)] } ch digit number
    else if p.state = 4 then
      -- STATE_WAIT_NOTE
      if p.player_timer < p.note_period then some p
      else
        let p := { p with player_timer := (p.player_timer + 65536 - p.note_period) % 65536 }
        service_loop score fuel
          { p with state := if p.rest_period ≠ 0 then 5 else 1 } ch digit number
    else if p.state = 5 then
      -- STATE_START_REST (beeper silenced)
      service_loop score fuel { p with state := 6 } ch digit number
    else if p.state = 6 then
      -- STATE_WAIT_REST
      if p.player_timer < p.rest_period then some p
      else
        let p := { p with player_timer := (p.player_timer + 65536 - p.rest_period) % 65536 }
        service_loop score fuel { p with state := 1 } ch digit number
    else if p.state = 7 then
      -- STATE_GET_DIGIT
      let p := { p with state := p.next_state }
      let digit := int8OfByte (next_player_char score p.player_ptr)
      let p := { p with player_ptr := p.player_ptr + 1 }
      if is_separator digit then service_loop score fuel p ch 0 number
      else if is_digit digit then service_loop score fuel p ch (digit - 48) number
      else service_loop score fuel { p with state := 21 } ch digit number
    else if p.state = 8 then
      -- STATE_GET_NUMBER
      let number := 0
      let ch := int8OfByte (next_player_char score p.player_ptr)
      let p := { p with player_ptr := p.player_ptr + 1 }
      let cp : Int × PState :=
        if is_separator ch then
          (int8OfByte (next_player_char score p.player_ptr),
            { p with player_ptr := p.player_ptr + 1 })
        else (ch, p)
      service_loop score fuel { cp.2 with state := 9 } cp.1 digit number
    else if p.state = 9 then
      -- STATE_GET_NUMBER_2
      match get_number_digits score (score.length + 2) ch p.player_ptr number with
      | none => none
      | some (ch, ptr, number) =>
        service_loop score fuel
          { p with player_ptr := ptr - 1, state := p.next_state } ch digit number
    else if p.state = 10 then
      -- STATE_SET_OCTAVE
      service_loop score fuel { p with octave := digit, state := 1 } ch digit number
    else if p.state = 11 then
      -- STATE_SET_NOTE_RATIO
      let digit := if digit > 8 then 8 else digit
      service_loop score fuel { p with ratio8 := toByte digit, state := 1 } ch digit number
    else if p.state = 12 then
      -- STATE_SET_VOLUME (gain hardware only; local digit clipped as in source)
      let digit :=
        if digit = 0 then digit
        else if digit - 1 > 7 then 7 else digit - 1
      service_loop score fuel { p with state := 1 } ch digit number
    else if p.state = 13 then
      -- STATE_SET_TRANSPOSITION
      service_loop score fuel
        { p with transposition := if number < 12 then int8Wrap number else 0, state := 1 }
        ch digit number
    else if p.state = 14 then
      -- STATE_SET_KEY (the scale-copy for loop leaves digit at 7)
      service_loop score fuel
        { p with scale := c_major_scale, accidental := 1, state := 15 } ch 7 number
    else if p.state = 15 then
      -- STATE_SET_KEY_2
      let ch := int8OfByte (next_player_char score p.player_ptr)
      let p := { p with player_ptr := p.player_ptr + 1 }
      if is_note ch then
        let ch := ch - 65
        let digit := int8Wrap (c_major_scale.getD ch.toNat 0 + p.accidental)
        service_loop score fuel { p with scale := p.scale.set ch.toNat digit } ch digit number
      else if ch = 45 then
        service_loop score fuel { p with accidental := -1 } ch digit number
      else if ch = 78 ∨ ch = 61 then
        service_loop score fuel { p with accidental := 0 } ch digit number
      else if ch = 43 ∨ ch = 35 then
        service_loop score fuel { p with accidental := 1 } ch digit number
      else
        service_loop score fuel
          { p with player_ptr := p.player_ptr - 1, state := 1 } ch digit number
    else if p.state = 16 then
      -- STATE_SET_TEMPO
      service_loop score fuel { p with state := 8, next_state := 17 } ch digit number
    else if p.state = 17 then
      -- STATE_SET_TEMPO_2
      let number := if number = 0 then 120 else number
      let whole := 625 * 60 * p.note_size / number % 65536
      let whole := if p.size_modifier &&& 1 ≠ 0 then (whole + whole / 2) % 65536 else whole
      let whole := if p.size_modifier &&& 2 ≠ 0 then whole / 3 else whole
      service_loop score fuel
        { p with whole_note_period := whole, state := 1 } ch digit number
    else if p.state = 18 then
      -- STATE_SET_BOOKMARK
      service_loop score fuel { p with state := 8, next_state := 19 } ch digit number
    else if p.state = 19 then
      -- STATE_SET_BOOKMARK_2
      let number := if number > 254 then 254 else number
      let number := if number = 0 then 255 else number
      service_loop score fuel
        { p with bookmarks := p.bookmarks.set digit.toNat (p.player_ptr, number),
                 state := 1 } ch digit number
    else if p.state = 20 then
      -- STATE_GOTO_BOOKMARK
      let bm := p.bookmarks.getD digit.toNat (0, 0)
      if bm.2 ≠ 0 ∧ bm.1 ≠ 0 then
        let rep := if bm.2 ≠ 255 then bm.2 - 1 else bm.2
        service_loop score fuel
          { p with bookmarks := p.bookmarks.set digit.toNat (bm.1, rep),
                   player_ptr := bm.1, jumps := p.jumps + 1, state := 1 } ch digit number
      else service_loop score fuel { p with state := 1 } ch digit number
    else if p.state = 21 then
      -- STATE_STOP: player_stop() then break
      some { p with player_enable := 0, state := 0 }
    else
      service_loop score fuel { p with state := 21 } ch digit number

/-- `player_service()` from src/player.c: early exit when stopped, otherwise
increment the uint16_t `player_timer` and run the state machine loop.  The
inner fuel 64 covers the deepest chain of states executed between two
breaks on the scores considered here. -/
def player_service (score : List Nat) (p : PState) : Option PState :=
  if p.player_enable = 0 then some p
  else
    let p := { p with player_timer := (p.player_timer + 1) % 65536 }
    service_loop score 64 p 0 0 0

/-- Iterate `player_service` over a number of ticks. -/
def player_run (score : List Nat) : Nat → PState → Option PState
  | 0, p => some p
  | n + 1, p => (player_service score p).bind (player_run score n)

/-- `player_start(str, mem_space)` from src/player.c, lines 610-636: stop the
player, point it at the string, clear all ten bookmarks, pre-scan with
`find_bookmark(0xFF)`, and enable playback with PLAYER_INIT. -/
def player_start (score : List Nat) (p : PState) : Option PState :=
  let p := { p with player_enable := 0, player_ptr := 0,
                    bookmarks := List.replicate 10 (0, 0) }
  match find_bookmark_iter score 255 (score.length + 4) 0 p.bookmarks with
  | none => none
  | some (bms, _, _) => some { p with bookmarks := bms, player_enable := 2 }

/-- The player statics at boot: BSS-zeroed, state STATE_RESET, stopped. -/
def player_init : PState :=
  { state := 0, next_state := 0, note := 0, octave := 0, accidental := 0,
    transposition := 0, note_size := 0, size_modifier := 0, ratio8 := 0,
    whole_note_period := 0, note_period := 0, rest_period := 0,
    scale := [0, 0, 0, 0, 0, 0, 0], player_timer := 0, player_ptr := 0,
    player_enable := 0, bookmarks := List.replicate 10 (0, 0),
    note_starts := [], jumps := 0 }

/-! ## Theorems for claims C1, C2, C3, C5 -/

/-- C1: the claim says that from 23:59:59 on the last day of a month the 1 Hz
update rolls the time to 00:00:00, advances the month, and resets the day
to 1.  The code performs no day reset: from 23:59:59 on 31-Jan-2009 (31 =
days_in_month(1, 2009)) a single `time_date_update` yields day 32 of
February, not day 1.  The time and month parts behave as claimed. -/
theorem claim1_rollover_day_not_reset :
    time_date_update 1 ⟨23, 59, 59⟩ ⟨2009, 1, 31⟩ = (⟨0, 0, 0⟩, ⟨2009, 2, 32⟩) := by
  decide

/-- C2 counterexample: the claim `days_in_month(2, 2000) = 29` is false on the
code: the leap test requires `year % 100 != 0`, which 2000 fails, and the
code has no `% 400` exception. -/
theorem claim2_counterexample : ¬ days_in_month 2 2000 = 29 := by
  decide

/-- C2 amended: `days_in_month(2, 2000) = 28`; the code treats year 2000 as a
common year, so the date year 2000, month 2, day 29 is not valid. -/
theorem claim2_feb2000_amended : days_in_month 2 2000 = 28 := by
  decide

/-- C3: over the supported window 2000..2099, February has 29 days exactly
when `y % 4 == 0` and `y % 100 != 0`, and 28 days otherwise, as the claim
states. -/
theorem claim3_leap_rule (y : Nat) (h1 : 2000 ≤ y) (h2 : y ≤ 2099) :
    (days_in_month 2 y = 29 ↔ (y % 4 = 0 ∧ y % 100 ≠ 0)) ∧
      (¬(y % 4 = 0 ∧ y % 100 ≠ 0) → days_in_month 2 y = 28) := by
  have h := (by decide :
      ∀ d < 100,
        (days_in_month 2 (2000 + d) = 29 ↔ ((2000 + d) % 4 = 0 ∧ (2000 + d) % 100 ≠ 0)) ∧
          (¬((2000 + d) % 4 = 0 ∧ (2000 + d) % 100 ≠ 0) → days_in_month 2 (2000 + d) = 28))
    (y - 2000) (by omega)
  have hy : 2000 + (y - 2000) = y := by omega
  rwa [hy] at h

/-- Witness for C3 at the leap year 2004. -/
theorem claim3_leap_rule_witness :
    (2000 ≤ 2004 ∧ 2004 ≤ 2099) ∧
      ((days_in_month 2 2004 = 29 ↔ (2004 % 4 = 0 ∧ 2004 % 100 ≠ 0)) ∧
        (¬(2004 % 4 = 0 ∧ 2004 % 100 ≠ 0) → days_in_month 2 2004 = 28)) :=
  ⟨by decide, claim3_leap_rule 2004 (by decide) (by decide)⟩

/-- C5: the claim says add_event keeps head and tail in 0..15.  Starting from
a cleared queue, 31 consecutive `add_event` calls (the 31st arriving with
head = 14 and tail = 15, i.e. a full queue) drive the tail to 16: the
discard branch `event_queue_tail++` has no wrap check.  A `get_next_event`
issued in this state indexes `event_queue[16]`, outside the 16-entry
array. -/
theorem claim5_tail_escape :
    (add_events_n 31 queue0).tail = 16 ∧ (add_events_n 31 queue0).head = 15 := by
  decide

/-- C4: the claim says that after any byte sequence the cursor stays in 0..6
and intensities stay in 0..9, in particular when a non-digit follows `@` or
`*`.  Because avr-gcc `char` is signed, a byte below '0' after `@` yields a
negative parameter that passes the `ch <= NIXIE_DISPLAY_WIDTH` test and is
then stored through uint8_t conversion: feeding '@' then '!' (0x40 0x21) to
a fresh stream sets the cursor to 241, and likewise '*' then '!' sets the
output intensity to 241, though the in-file command documentation says both
commands are ignored for invalid parameters. -/
theorem claim4_cursor_escape :
    (nixie_out_list nixie_stream_init [64, 33]).cursor = 241 ∧
      (nixie_out_list nixie_stream_init [42, 33]).intensity = 241 := by
  decide

/-- C9: writing the six bytes "\f@3*5A" (12, 64, 51, 42, 53, 65) to a fresh
stream leaves the cursor at 4 and exactly the two segment entries 32 and 33
(tube 3, segments 0 and 1) at intensity 5, all other entries 0. -/
theorem claim9_stream_scenario :
    (nixie_out_list nixie_stream_init [12, 64, 51, 42, 53, 65]).cursor = 4 ∧
      (nixie_out_list nixie_stream_init [12, 64, 51, 42, 53, 65]).segdata =
        ((List.replicate 64 0).set 32 5).set 33 5 := by
  decide

/-- C8 counterexample: with the active buffer at full intensity, the target
empty and crossfade rate 0, the claim allows at most I_max * (rate+1) = 9
completed PWM cycles, but after 9 cycles the do/while loop of
`nixie_crossfade` has not yet exited: the ninth fade pass still zeroes the
last intensity step, and the loop only terminates on the following pass,
the one that observes no change. -/
theorem claim8_counterexample :
    (nixie_crossfade (List.replicate 64 9) (List.replicate 64 0) 0 9).done = false := by
  decide

/-- C8 amended: for every rate r in 0..3, starting from a fully lit active
buffer and an empty target, `nixie_crossfade` terminates after exactly
I_max * (r+1) + 1 completed PWM cycles (one more than the claim's bound,
for the final no-change pass) and the active buffer ends all zero. -/
theorem claim8_bound_amended (r : Nat) (hr : r ≤ 3) :
    (nixie_crossfade (List.replicate 64 9) (List.replicate 64 0) r (9 * (r + 1) + 1)).done
        = true ∧
      (nixie_crossfade (List.replicate 64 9) (List.replicate 64 0) r
            (9 * (r + 1) + 1)).buffer
        = List.replicate 64 0 ∧
      (nixie_crossfade (List.replicate 64 9) (List.replicate 64 0) r
            (9 * (r + 1) + 1)).cycles
        = 9 * r + 10 :=
  (by decide :
      ∀ r < 4,
        (nixie_crossfade (List.replicate 64 9) (List.replicate 64 0) r
              (9 * (r + 1) + 1)).done
            = true ∧
          (nixie_crossfade (List.replicate 64 9) (List.replicate 64 0) r
                (9 * (r + 1) + 1)).buffer
            = List.replicate 64 0 ∧
          (nixie_crossfade (List.replicate 64 9) (List.replicate 64 0) r
                (9 * (r + 1) + 1)).cycles
            = 9 * r + 10)
    r (by omega)

/-- Witness for the amended C8 bound at rate 2. -/
theorem claim8_bound_amended_witness :
    (2 ≤ 3) ∧
      ((nixie_crossfade (List.replicate 64 9) (List.replicate 64 0) 2 (9 * (2 + 1) + 1)).done
          = true ∧
        (nixie_crossfade (List.replicate 64 9) (List.replicate 64 0) 2
              (9 * (2 + 1) + 1)).buffer
          = List.replicate 64 0 ∧
        (nixie_crossfade (List.replicate 64 9) (List.replicate 64 0) 2
              (9 * (2 + 1) + 1)).cycles
          = 9 * 2 + 10) :=
  ⟨by decide, claim8_bound_amended 2 (by decide)⟩

/-! ## Crossfade convergence lemmas (for claim C10) -/

/-- One fade pass reduces a segment's remaining distance by exactly one. -/
theorem fade_seg_dist_sub (f t : Nat) : seg_dist (fade_seg f t) t = seg_dist f t - 1 := by
  unfold fade_seg seg_dist
  split_ifs <;> omega

/-- A segment is untouched by a fade pass exactly when its distance is 0. -/
theorem fade_seg_eq_iff (f t : Nat) : fade_seg f t = f ↔ seg_dist f t = 0 := by
  unfold fade_seg seg_dist
  split_ifs <;> omega

/-- The converged value of a segment is invariant under fade passes. -/
theorem final_seg_fade (f t : Nat) : final_seg (fade_seg f t) t = final_seg f t := by
  unfold fade_seg final_seg
  split_ifs <;> omega

/-- A segment fixed by the fade pass already holds its converged value. -/
theorem fade_seg_fix (f t : Nat) (h : fade_seg f t = f) : f = final_seg f t := by
  unfold fade_seg at h
  unfold final_seg
  split_ifs at * <;> omega

/-- Unfolding `sum_dist` on cons cells. -/
theorem sum_dist_cons (a b : Nat) (as bs : List Nat) :
    sum_dist (a :: as) (b :: bs) = seg_dist a b + sum_dist as bs := by
  simp [sum_dist]

/-- The converged buffer is invariant under fade passes. -/
theorem final_fade_pass :
    ∀ (p t : List Nat),
      List.zipWith final_seg (fade_pass p t) t = List.zipWith final_seg p t := by
  intro p
  induction p with
  | nil => intro t; cases t <;> simp [fade_pass]
  | cons a as ih =>
    intro t
    cases t with
    | nil => simp [fade_pass]
    | cons b bs =>
      have h := ih bs
      simp only [fade_pass] at h
      simp [fade_pass, final_seg_fade, h]

/-- A buffer fixed by the fade pass equals the converged buffer. -/
theorem fade_pass_fix :
    ∀ (p t : List Nat), p.length = t.length → fade_pass p t = p →
      p = List.zipWith final_seg p t := by
  intro p
  induction p with
  | nil => intro t _ _; simp
  | cons a as ih =>
    intro t hlen hfix
    cases t with
    | nil => simp at hlen
    | cons b bs =>
      simp only [fade_pass, List.zipWith_cons_cons, List.cons.injEq] at hfix ⊢
      refine ⟨fade_seg_fix a b hfix.1, ih bs ?_ hfix.2⟩
      simpa using hlen

/-- A fade pass never increases the total remaining distance. -/
theorem sum_dist_fade_le :
    ∀ (p t : List Nat), sum_dist (fade_pass p t) t ≤ sum_dist p t := by
  intro p
  induction p with
  | nil => intro t; cases t <;> simp [sum_dist, fade_pass]
  | cons a as ih =>
    intro t
    cases t with
    | nil => simp [sum_dist, fade_pass]
    | cons b bs =>
      have h1 := fade_seg_dist_sub a b
      have h2 := ih bs
      simp only [fade_pass, List.zipWith_cons_cons] at *
      rw [sum_dist_cons, sum_dist_cons, h1]
      omega

/-- A fade pass that changes the buffer strictly decreases the total
remaining distance. -/
theorem sum_dist_fade_lt :
    ∀ (p t : List Nat), p.length = t.length → fade_pass p t ≠ p →
      sum_dist (fade_pass p t) t < sum_dist p t := by
  intro p
  induction p with
  | nil => intro t _ h; cases t <;> simp [fade_pass] at h
  | cons a as ih =>
    intro t hlen h
    cases t with
    | nil => simp at hlen
    | cons b bs =>
      have hlen2 : as.length = bs.length := by simpa using hlen
      simp only [fade_pass, List.zipWith_cons_cons, ne_eq, List.cons.injEq, not_and_or]
        at h ⊢
      have hd := fade_seg_dist_sub a b
      rw [sum_dist_cons, sum_dist_cons, hd]
      rcases h with h | h
      · have hne : ¬ seg_dist a b = 0 := fun hz => h ((fade_seg_eq_iff a b).mpr hz)
        have := sum_dist_fade_le as bs
        simp only [fade_pass] at this
        omega
      · have := ih bs hlen2 (by simpa [fade_pass] using h)
        simp only [fade_pass] at this
        omega

/-- Per-segment distances are bounded by the byte range of the buffers. -/
theorem sum_dist_le_bound :
    ∀ (p t : List Nat), (∀ x ∈ p, x < 256) → (∀ x ∈ t, x < 256) →
      sum_dist p t ≤ 255 * min p.length t.length := by
  intro p
  induction p with
  | nil => intro t _ _; simp [sum_dist]
  | cons a as ih =>
    intro t hp ht
    cases t with
    | nil => simp [sum_dist]
    | cons b bs =>
      have ha : a < 256 := hp a (List.mem_cons_self a as)
      have hb : b < 256 := ht b (List.mem_cons_self b bs)
      have hrest := ih bs (fun x hx => hp x (List.mem_cons_of_mem a hx))
        (fun x hx => ht x (List.mem_cons_of_mem b hx))
      have hseg : seg_dist a b ≤ 255 := by unfold seg_dist; split_ifs <;> omega
      rw [sum_dist_cons]
      simp only [List.length_cons]
      omega

/-- The crossfade pass preserves buffer length (for equal-length buffers). -/
theorem fade_pass_length (p t : List Nat) (h : p.length = t.length) :
    (fade_pass p t).length = t.length := by
  simp [fade_pass, h]

/-- Main loop specification: with enough fuel the do/while loop of
`nixie_crossfade` exits and leaves the active buffer at the pointwise
converged value.  The fuel bound accounts for up to `rate` skip cycles
before each of the at most `n + 1` fade passes. -/
theorem crossfade_loop_spec (pto : List Nat) (rate : Nat) (hrate : rate ≤ 3) :
    ∀ fuel n pfrom count cycles,
      pfrom.length = pto.length →
      sum_dist pfrom pto ≤ n →
      count ≤ 3 →
      4 * (n + 1) + (4 - count) ≤ fuel →
      (crossfade_loop pto rate fuel pfrom count cycles).done = true ∧
        (crossfade_loop pto rate fuel pfrom count cycles).buffer
          = List.zipWith final_seg pfrom pto := by
  intro fuel
  induction fuel with
  | zero => intro n pfrom count cycles _ _ hc hf; omega
  | succ f ih =>
    intro n pfrom count cycles hlen hn hc hf
    by_cases hcr : count < rate
    · have hmod : (count + 1) % 4 = count + 1 := Nat.mod_eq_of_lt (by omega)
      simp only [crossfade_loop, if_pos hcr, hmod]
      exact ih n pfrom (count + 1) (cycles + 1) hlen hn (by omega) (by omega)
    · by_cases hfix : fade_pass pfrom pto = pfrom
      · simp only [crossfade_loop, if_neg hcr, if_pos hfix]
        exact ⟨trivial, hfix.trans (fade_pass_fix pfrom pto hlen hfix)⟩
      · have hlt := sum_dist_fade_lt pfrom pto hlen hfix
        have hres := ih (n - 1) (fade_pass pfrom pto) 0 (cycles + 1)
          (fade_pass_length pfrom pto hlen) (by omega) (by omega) (by omega)
        simp only [crossfade_loop, if_neg hcr, if_neg hfix]
        exact ⟨hres.1, hres.2.trans (final_fade_pass pfrom pto)⟩

/-- C10: for any pair of 64-byte active and target buffers and any configured
rate 0..3, `nixie_crossfade` returns (the fuel 131072 dominates the worst
case of 4 * (64*255 + 1) + 1 PWM cycles) and each segment ends at the
target intensity if the target exceeds the starting active value, at 0 if
the target is 0, and otherwise keeps its starting value - in particular a
lit segment is never faded down to a lower non-zero target. -/
theorem claim10_crossfade_endstate (pfrom pto : List Nat) (rate : Nat)
    (h1 : pfrom.length = 64) (h2 : pto.length = 64)
    (h3 : ∀ x ∈ pfrom, x < 256) (h4 : ∀ x ∈ pto, x < 256) (h5 : rate ≤ 3) :
    (nixie_crossfade pfrom pto rate 131072).done = true ∧
      (nixie_crossfade pfrom pto rate 131072).buffer
        = List.zipWith final_seg pfrom pto := by
  have hlen : pfrom.length = pto.length := by omega
  have hsum : sum_dist pfrom pto ≤ 16320 := by
    have := sum_dist_le_bound pfrom pto h3 h4
    rw [h1, h2] at this
    omega
  exact crossfade_loop_spec pto rate h5 131072 16320 pfrom 3 0 hlen hsum (by omega)
    (by omega)

/-- Witness for C10: fading a uniformly lit buffer (intensity 3) into an empty
target at rate 1 ends with the buffer all zero. -/
theorem claim10_crossfade_endstate_witness :
    ((List.replicate 64 3 : List Nat).length = 64 ∧
        (List.replicate 64 0 : List Nat).length = 64 ∧
        (∀ x ∈ (List.replicate 64 3 : List Nat), x < 256) ∧
        (∀ x ∈ (List.replicate 64 0 : List Nat), x < 256) ∧ 1 ≤ 3) ∧
      ((nixie_crossfade (List.replicate 64 3) (List.replicate 64 0) 1 131072).done = true ∧
        (nixie_crossfade (List.replicate 64 3) (List.replicate 64 0) 1 131072).buffer
          = List.zipWith final_seg (List.replicate 64 3) (List.replicate 64 0)) :=
  ⟨⟨by decide, by decide, by decide, by decide, by decide⟩,
    claim10_crossfade_endstate (List.replicate 64 3) (List.replicate 64 0) 1
      (by decide) (by decide) (by decide) (by decide) (by decide)⟩

/-- The score "P3:C" as bytes: a well-formed transposition command (P, number
3, separator) followed by a note. -/
def score_transpose : List Nat := [80, 51, 58, 67]

/-- C6: the claim says a well-formed `P<nn>:` command sets the transposition
and playback continues.  In the source the `is_transpose_cmd` branch of
STATE_GET_NOTE is the only recognized-command branch without a `continue`,
so it falls through to `state = STATE_STOP`: one `player_service` call
after starting "P3:C" the player is stopped (player_enable = PLAYER_STOP =
0), the transposition is still 0, and no note was ever started. -/
theorem claim6_transpose_stops :
    ((player_start score_transpose player_init).bind (player_service score_transpose)).map
        (fun s => (s.player_enable, s.transposition, s.note_starts.length))
      = some (0, 0, 0) := by
  decide

/-- The score "[0:3:C]0:" as bytes: bookmark 0 with repeat count 3, note C,
jump to bookmark 0. -/
def score_bookmark : List Nat := [91, 48, 58, 51, 58, 67, 93, 48, 58]

/-- C7 counterexample: running the player on "[0:3:C]0:" for 1400 ticks (the
score is long over by then), it is not the case that the player has
stopped having started the note C exactly three times. -/
theorem claim7_counterexample :
    ¬ ((player_start score_bookmark player_init).bind (player_run score_bookmark 1400)).map
          (fun s => (s.player_enable, s.note_starts.length))
        = some (0, 3) := by
  decide

/-- C7 amended: on "[0:3:C]0:" the player starts the note C (octave 4,
semitone 0) exactly FOUR times and then stops; the `]0` jump back to the
bookmark is taken exactly 3 times - r times for repeat count r, not r-1 -
because the jump is taken whenever the counter is still nonzero and the
decrement happens after that test.  Bookmark 0's counter is decremented to
0 at the third jump, before the fourth (final) iteration begins, and that
fourth iteration still plays. -/
theorem claim7_bookmark_amended :
    ((player_start score_bookmark player_init).bind (player_run score_bookmark 1400)).map
        (fun s => (s.player_enable, s.note_starts, s.jumps, s.bookmarks.getD 0 (0, 0)))
      = some (0, [(4, 0), (4, 0), (4, 0), (4, 0)], 3, (4, 0)) := by
  decide
